import Mathlib

/-!
Shallow embedding of `src/main.py` of the firefly-iii FIO importer.

Conventions:
* Python `float` money amounts are modelled as `ℚ` (exact signed decimals).
* Python `date` / `datetime` values are modelled as `ℤ` day ordinals
  (Python dates are ordinals internally; `timedelta(days=k)` is `+ k`).
* Python `None` becomes `Option.none`; Python exceptions become `Except`.
* HTTP traffic is modelled by passing the server's response function
  explicitly; a request counter makes the number of registry fetches
  observable.
-/

/-- Enum `TransactionType` of `main.py`. -/
inductive TransactionType where
  | withdrawal
  | deposit
  | transfer
  | reconciliation
  | opening_balance
deriving DecidableEq, Repr

/-- Enum `AccountType` of `main.py`. -/
inductive AccountType where
  | asset
  | expense
  | revenue
  | cash
deriving DecidableEq, Repr

/-- Dataclass `Account` of `main.py`. -/
structure Account where
  id : String
  type : AccountType
deriving DecidableEq, Repr

/-- The fields of a raw FIO bank transaction dict that `Transaction.from_fio_data`
reads.  Optional free-text fields are `Option String` (Python `None`). -/
structure RawTx where
  date : ℤ
  amount : ℚ
  bank_code : String
  account_number : String
  account_name : Option String
  recipient_message : Option String
  user_identification : Option String
  instruction_id : ℤ
deriving DecidableEq, Repr

/-- Dataclass `Transaction` of `main.py`; the four id/name fields default to
`none` as in the Python dataclass. -/
structure Transaction where
  type : TransactionType
  date : ℤ
  amount : ℚ
  description : String
  notes : String
  external_id : ℤ
  source_id : Option String := none
  destination_id : Option String := none
  source_name : Option String := none
  destination_name : Option String := none
deriving DecidableEq, Repr

/-- Python `x or "-"` applied to an optional string: `None` and the empty
string are falsy, so both fall back to `"-"`. -/
def orDash : Option String → String
  | none => "-"
  | some s => if s = "" then "-" else s

/-- Lines 80–130 of `main.py`: the body of `Transaction.from_fio_data` after
the two `find_account_by_iban` calls.  `account_data` is the resolution of the
own account's IBAN, `other_account_data` the resolution of the derived
counterparty IBAN (`none` on derivation failure or no match). -/
def fromFioData (account_data other_account_data : Option Account)
    (tx : RawTx) : Transaction :=
  let ty : TransactionType :=
    match other_account_data with
    | some a =>
      if a.type = AccountType.asset then TransactionType.transfer
      else if tx.amount < 0 then TransactionType.withdrawal
      else TransactionType.deposit
    | none =>
      if tx.amount < 0 then TransactionType.withdrawal
      else TransactionType.deposit
  let r : Transaction :=
    { type := ty
      date := tx.date
      amount := |tx.amount|
      description := orDash tx.recipient_message
      notes := orDash tx.user_identification
      external_id := tx.instruction_id }
  let r :=
    if r.type = TransactionType.withdrawal then
      let r := { r with destination_name := tx.account_name }
      let r :=
        match account_data with
        | some a => { r with source_id := some a.id }
        | none => r
      match other_account_data with
      | some a => { r with destination_id := some a.id }
      | none => r
    else r
  let r :=
    if r.type = TransactionType.deposit then
      let r := { r with source_name := tx.account_name }
      let r :=
        match other_account_data with
        | some a => { r with source_id := some a.id }
        | none => r
      match account_data with
      | some a => { r with destination_id := some a.id }
      | none => r
    else r
  let r :=
    if r.type = TransactionType.transfer then
      if tx.amount > 0 then
        let r :=
          match account_data with
          | some a => { r with destination_id := some a.id }
          | none => r
        match other_account_data with
        | some a => { r with source_id := some a.id }
        | none => r
      else
        let r := { r with notes := "-" }
        let r :=
          match account_data with
          | some a => { r with source_id := some a.id }
          | none => r
        match other_account_data with
        | some a => { r with destination_id := some a.id }
        | none => r
    else r
  r

/-- The ledger's response to the IBAN account search, as read by
`find_account_by_iban`: the HTTP status code and the decoded `data` list
(each entry carrying `id` and `attributes.type`, i.e. an `Account`). -/
structure SearchResponse where
  status : ℕ
  data : List Account
deriving DecidableEq, Repr

/-- Function `find_account_by_iban` of `main.py` (lines 148–168).  `fetch` is the
ledger server: it maps the queried IBAN to its response.  A `None` IBAN
yields absent without a request.  The code first returns absent when the
status is 404 or the `data` list is empty, and only then calls
`raise_for_status`, which raises (modelled as `Except.error` carrying the
response) exactly on statuses 400–599. -/
def findAccountByIban (fetch : String → SearchResponse) :
    Option String → Except SearchResponse (Option Account)
  | none => Except.ok none
  | some iban =>
    let response := fetch iban
    let accounts := response.data
    if response.status = 404 ∨ accounts.length = 0 then Except.ok none
    else if 400 ≤ response.status ∧ response.status < 600 then
      Except.error response
    else
      match accounts with
      | a :: _ => Except.ok (some a)
      | [] => Except.ok none

/-- Function `find_account_by_iban` with an explicit counter of registry requests:
the body issues exactly one HTTP request whenever the IBAN is present. -/
def findAccountByIbanCounted (fetch : String → SearchResponse)
    (iban : Option String) (n : ℕ) :
    Except SearchResponse (Option Account) × ℕ :=
  match iban with
  | none => (Except.ok none, n)
  | some i => (findAccountByIban fetch (some i), n + 1)

/-- One evaluation of `Transaction.from_fio_data` (lines 60–130) with the
registry-request counter threaded through.  `derivedIban` is the outcome of
the `IBAN.generate` call of lines 63–68 (`none` when it raised, in which
case the counterparty lookup is skipped by the `except` clause); `ownIban`
is `account["iban"]`.  HTTP errors raised by `find_account_by_iban` are not
caught by the `except (ValueError, AttributeError)` clause and propagate. -/
def fromFioDataCounted (fetch : String → SearchResponse)
    (derivedIban ownIban : Option String) (tx : RawTx) (n : ℕ) :
    Except SearchResponse (Transaction × ℕ) :=
  match findAccountByIbanCounted fetch derivedIban n with
  | (Except.error e, _) => Except.error e
  | (Except.ok other_account_data, n1) =>
    match findAccountByIbanCounted fetch ownIban n1 with
    | (Except.error e, _) => Except.error e
    | (Except.ok account_data, n2) =>
      Except.ok (fromFioData account_data other_account_data tx, n2)

/-- The classification loop of `main()` (the list comprehension over the
fetched transactions), with the registry-request counter threaded through.
`derive` gives each transaction's derived counterparty IBAN. -/
def classifyAllCounted (fetch : String → SearchResponse)
    (derive : RawTx → Option String) (ownIban : Option String) :
    List RawTx → ℕ → Except SearchResponse (List Transaction × ℕ)
  | [], n => Except.ok ([], n)
  | tx :: rest, n =>
    match fromFioDataCounted fetch (derive tx) ownIban tx n with
    | Except.error e => Except.error e
    | Except.ok (t, n1) =>
      match classifyAllCounted fetch derive ownIban rest n1 with
      | Except.error e => Except.error e
      | Except.ok (ts, n2) => Except.ok (t :: ts, n2)

/-- Function `fetch_transactions` of `main.py` (lines 171–176), over day ordinals:
`now` is `datetime.now(ZoneInfo("Europe/Prague"))`, the result is the
`(from, to)` pair handed to `client.period`. -/
def fetchTransactionsWindow (now : ℤ) (since : Option ℤ) : ℤ × ℤ :=
  (match since with
   | some d => d - 1
   | none => now - 3000,
   now)

/-- Day ordinal of a proleptic-Gregorian civil date (days since 1970-01-01),
used to relate concrete `y-m-d` dates to the day-ordinal model of Python
dates: `date(y, m, d) - timedelta(days = 1)` is the date whose ordinal is
`civilToDays y m d - 1`. -/
def civilToDays (y m d : ℤ) : ℤ :=
  let y' := if m ≤ 2 then y - 1 else y
  let era := (if 0 ≤ y' then y' else y' - 399) / 400
  let yoe := y' - era * 400
  let doy := (153 * (m + (if 2 < m then -3 else 9)) + 2) / 5 + d - 1
  let doe := yoe * 365 + yoe / 4 - yoe / 100 + doy
  era * 146097 + doe - 719468

/-- The ledger's response to `POST transactions`, as read by
`store_transactions`: HTTP status and the decoded `errors` object, a mapping
from field name to its list of error messages (in order). -/
structure PostResponse where
  status : ℕ
  errors : List (String × List String)
deriving DecidableEq, Repr

/-- Python `str.lower()` (character-wise lowering, here on ASCII data). -/
def pyLower (s : String) : String := String.mk (s.data.map Char.toLower)

/-- Python `str.startswith(pre)`. -/
def pyStartsWith (s pre : String) : Bool := pre.data.isPrefixOf s.data

/-- The duplicate test of `store_transactions` (lines 200–203):
`all(error.lower().startswith("duplicate") for error in
flatten(result["errors"].values()))`. -/
def allDuplicate (errors : List (String × List String)) : Bool :=
  (errors.flatMap Prod.snd).all (fun m => pyStartsWith (pyLower m) "duplicate")

/-- The per-transaction error handling of `store_transactions` (lines
195–209): `raise_for_status` raises exactly on statuses 400–599; a raised
error is swallowed (logged, loop continues: `Except.ok`) when every message
is duplicate-prefixed, and re-raised with the full payload otherwise. -/
def storeOne (resp : PostResponse) :
    Except (List (String × List String)) Unit :=
  if 400 ≤ resp.status ∧ resp.status < 600 then
    if allDuplicate resp.errors then Except.ok ()
    else Except.error resp.errors
  else Except.ok ()

/-! Concrete sample data used by counterexamples and witnesses. -/

/-- A raw outgoing transaction (signed amount −500). -/
def exTxNeg : RawTx :=
  { date := 19732
    amount := -500
    bank_code := "2010"
    account_number := "123456-0100"
    account_name := some "ACME Corp"
    recipient_message := none
    user_identification := some "Payment ref 42"
    instruction_id := 42 }

/-- A raw incoming transaction (signed amount +250). -/
def exTxPos : RawTx :=
  { exTxNeg with amount := 250, instruction_id := 43 }

/-- A raw transaction with signed amount exactly 0. -/
def exTxZero : RawTx :=
  { exTxNeg with amount := 0, instruction_id := 44 }

/-- The own account resolved in the ledger. -/
def exOwnAccount : Account := { id := "1", type := AccountType.asset }

/-- A counterparty resolved to an `expense`-typed ledger account. -/
def exExpenseAccount : Account := { id := "7", type := AccountType.expense }

/-- A counterparty resolved to an `asset`-typed ledger account. -/
def exAssetAccount : Account := { id := "9", type := AccountType.asset }

/-- A ledger server whose IBAN search always succeeds with one asset account. -/
def exFetch : String → SearchResponse :=
  fun _ => { status := 200, data := [exOwnAccount] }

/-! Helper lemmas shared by several theorems. -/

/-- The `type` computed by `from_fio_data` as a function of the resolved
counterparty and the sign of the raw amount; the field-population code after
line 88 never changes it. -/
theorem fromFioData_type (ad od : Option Account) (tx : RawTx) :
    (fromFioData ad od tx).type =
      (match od with
       | some a =>
         if a.type = AccountType.asset then TransactionType.transfer
         else if tx.amount < 0 then TransactionType.withdrawal
         else TransactionType.deposit
       | none =>
         if tx.amount < 0 then TransactionType.withdrawal
         else TransactionType.deposit) := by
  cases od with
  | none =>
    cases ad <;> by_cases h : tx.amount < 0 <;>
      simp [fromFioData, h]
  | some a =>
    cases ad <;> rcases a with ⟨i, t⟩ <;> by_cases ha : t = AccountType.asset <;>
      by_cases h : tx.amount < 0 <;>
      simp [fromFioData, ha, h] <;> split <;> rfl

/-- C1: the classified type is `transfer` iff the counterparty resolved to an
`asset`-typed account; otherwise it is `withdrawal` exactly when the raw
signed amount is negative and `deposit` otherwise — so an `expense`,
`revenue` or `cash` counterparty never yields a transfer. -/
theorem classifier_type_correct (ad od : Option Account) (tx : RawTx) :
    ((fromFioData ad od tx).type = TransactionType.transfer ↔
      ∃ a, od = some a ∧ a.type = AccountType.asset) ∧
    ((∀ a, od = some a → a.type ≠ AccountType.asset) →
      (fromFioData ad od tx).type =
        if tx.amount < 0 then TransactionType.withdrawal
        else TransactionType.deposit) := by
  rw [fromFioData_type]
  cases od with
  | none =>
    by_cases h : tx.amount < 0 <;> simp [h]
  | some a =>
    by_cases ha : a.type = AccountType.asset <;>
      by_cases h : tx.amount < 0 <;>
      simp [ha, h]

/-- Witness for C1 at a concrete input: an `expense`-typed counterparty with
a negative amount is classified `withdrawal`, not `transfer`. -/
theorem classifier_type_correct_witness :
    (fromFioData (some exOwnAccount) (some exExpenseAccount) exTxNeg).type =
      TransactionType.withdrawal := by
  have h :=
    (classifier_type_correct (some exOwnAccount) (some exExpenseAccount)
      exTxNeg).2
  rw [h (by intro a ha; cases ha; decide), if_pos (by norm_num [exTxNeg])]

/-- C8: the produced `amount` is the absolute value of the raw signed amount,
hence never negative, whatever the resolutions and the sign. -/
theorem amount_always_abs (ad od : Option Account) (tx : RawTx) :
    (fromFioData ad od tx).amount = |tx.amount| ∧
    0 ≤ (fromFioData ad od tx).amount := by
  have h : (fromFioData ad od tx).amount = |tx.amount| := by
    cases od with
    | none =>
      cases ad <;> by_cases h : tx.amount < 0 <;>
        simp [fromFioData, h]
    | some a =>
      cases ad <;> rcases a with ⟨i, t⟩ <;> by_cases ha : t = AccountType.asset <;>
        by_cases h : tx.amount < 0 <;>
        simp [fromFioData, ha, h] <;> split <;> rfl
  exact ⟨h, h ▸ abs_nonneg tx.amount⟩

/-- C10: a raw amount of exactly zero with no `asset`-typed counterparty is
classified `deposit` — zero does not take the `withdrawal` branch. -/
theorem zero_amount_is_deposit (ad od : Option Account) (tx : RawTx)
    (h0 : tx.amount = 0)
    (hna : ∀ a, od = some a → a.type ≠ AccountType.asset) :
    (fromFioData ad od tx).type = TransactionType.deposit := by
  rw [fromFioData_type]
  have hlt : ¬ tx.amount < 0 := by rw [h0]; exact lt_irrefl 0
  cases od with
  | none => rw [if_neg hlt]
  | some a =>
    show (if a.type = AccountType.asset then TransactionType.transfer
      else if tx.amount < 0 then TransactionType.withdrawal
      else TransactionType.deposit) = TransactionType.deposit
    rw [if_neg (hna a rfl), if_neg hlt]

/-- Witness for C10: the zero-amount sample transaction with an
`expense`-typed counterparty is classified `deposit`. -/
theorem zero_amount_is_deposit_witness :
    (fromFioData (some exOwnAccount) (some exExpenseAccount) exTxZero).type =
      TransactionType.deposit :=
  zero_amount_is_deposit (some exOwnAccount) (some exExpenseAccount) exTxZero
    (by norm_num [exTxZero, exTxNeg])
    (by intro a ha; cases ha; decide)

/-- Counterexample for C3: a negative-amount transaction whose counterparty
resolves to an `expense`-typed account is a `withdrawal` with BOTH
`destination_id` and `destination_name` set on the destination side, so "at
most one of id and name per side" fails, and the name is used even though a
matching ledger account exists. -/
theorem both_dest_id_and_name_set :
    (fromFioData (some exOwnAccount) (some exExpenseAccount)
      exTxNeg).destination_id = some "7" ∧
    (fromFioData (some exOwnAccount) (some exExpenseAccount)
      exTxNeg).destination_name = some "ACME Corp" ∧
    (fromFioData (some exOwnAccount) (some exExpenseAccount) exTxNeg).type =
      TransactionType.withdrawal := by
  refine ⟨?_, ?_, ?_⟩ <;> decide

/-- C3 amended: the own-account side never carries a name (`withdrawal`
source / `deposit` destination use only the resolved id, if any); but for
`withdrawal` and `deposit` the counterparty side always carries the raw
display name AND additionally the resolved id whenever the counterparty
resolved (necessarily to a non-asset account); for `transfer` neither side
ever carries a name. -/
theorem id_name_fields_by_type (ad od : Option Account) (tx : RawTx) :
    ((fromFioData ad od tx).type = TransactionType.withdrawal →
      (fromFioData ad od tx).source_name = none ∧
      (fromFioData ad od tx).source_id = Option.map Account.id ad ∧
      (fromFioData ad od tx).destination_name = tx.account_name ∧
      (fromFioData ad od tx).destination_id = Option.map Account.id od) ∧
    ((fromFioData ad od tx).type = TransactionType.deposit →
      (fromFioData ad od tx).destination_name = none ∧
      (fromFioData ad od tx).destination_id = Option.map Account.id ad ∧
      (fromFioData ad od tx).source_name = tx.account_name ∧
      (fromFioData ad od tx).source_id = Option.map Account.id od) ∧
    ((fromFioData ad od tx).type = TransactionType.transfer →
      (fromFioData ad od tx).source_name = none ∧
      (fromFioData ad od tx).destination_name = none) := by
  cases od with
  | none =>
    cases ad <;> by_cases h : tx.amount < 0 <;>
      simp [fromFioData, h]
  | some a =>
    cases ad <;> rcases a with ⟨i, t⟩ <;> by_cases ha : t = AccountType.asset <;>
      by_cases h : tx.amount < 0 <;>
      simp [fromFioData, ha, h] <;> split <;> simp

/-- Witness for the amended C3 at a concrete withdrawal: source side carries
only the resolved id, destination side the raw name and the counterparty id. -/
theorem id_name_fields_by_type_witness :
    (fromFioData (some exOwnAccount) (some exExpenseAccount)
      exTxNeg).source_name = none ∧
    (fromFioData (some exOwnAccount) (some exExpenseAccount)
      exTxNeg).source_id = some "1" := by
  have h :=
    (id_name_fields_by_type (some exOwnAccount) (some exExpenseAccount)
      exTxNeg).1 (by decide)
  exact ⟨h.1, by rw [h.2.1]; rfl⟩

/-- C4: when the own account resolves (guaranteed for a run, since `main`
exits when the own IBAN is not found) and the counterparty resolves to an
`asset`-typed account, the transaction is a `transfer` with both ids
populated and no names; a positive amount makes the own account the
destination, a negative amount makes it the source and replaces `notes`
with the placeholder. -/
theorem transfer_uses_resolved_ids (a b : Account) (tx : RawTx)
    (hasset : b.type = AccountType.asset) :
    (fromFioData (some a) (some b) tx).type = TransactionType.transfer ∧
    (fromFioData (some a) (some b) tx).source_name = none ∧
    (fromFioData (some a) (some b) tx).destination_name = none ∧
    (fromFioData (some a) (some b) tx).source_id ≠ none ∧
    (fromFioData (some a) (some b) tx).destination_id ≠ none ∧
    (0 < tx.amount →
      (fromFioData (some a) (some b) tx).destination_id = some a.id ∧
      (fromFioData (some a) (some b) tx).source_id = some b.id) ∧
    (tx.amount < 0 →
      (fromFioData (some a) (some b) tx).source_id = some a.id ∧
      (fromFioData (some a) (some b) tx).destination_id = some b.id ∧
      (fromFioData (some a) (some b) tx).notes = "-") := by
  by_cases h : tx.amount > 0 <;>
    (simp [fromFioData, hasset, h]; try (intro hneg; linarith))

/-- Witness for C4: the concrete outgoing transfer uses the own id as
source, the counterparty id as destination, and the placeholder notes. -/
theorem transfer_uses_resolved_ids_witness :
    (fromFioData (some exOwnAccount) (some exAssetAccount)
      exTxNeg).source_id = some "1" ∧
    (fromFioData (some exOwnAccount) (some exAssetAccount)
      exTxNeg).destination_id = some "9" ∧
    (fromFioData (some exOwnAccount) (some exAssetAccount)
      exTxNeg).notes = "-" := by
  have h :=
    transfer_uses_resolved_ids exOwnAccount exAssetAccount exTxNeg rfl
  exact h.2.2.2.2.2.2 (by norm_num [exTxNeg])

/-- C5: the sync window always ends at `now`; it starts exactly one day
before the last known date when one exists (concretely, 2024-01-10 yields
2024-01-09) and 3000 days before `now` otherwise. -/
theorem sync_window_correct (now d : ℤ) :
    fetchTransactionsWindow now (some d) = (d - 1, now) ∧
    fetchTransactionsWindow now none = (now - 3000, now) ∧
    fetchTransactionsWindow now (some (civilToDays 2024 1 10)) =
      (civilToDays 2024 1 9, now) := by
  refine ⟨rfl, rfl, ?_⟩
  show (civilToDays 2024 1 10 - 1, now) = (civilToDays 2024 1 9, now)
  rw [Prod.mk.injEq]
  exact ⟨by decide, rfl⟩

/-- C2: for a non-success submission response, the Import Writer swallows
the failure exactly when every message of every field of the error payload
starts with "duplicate" case-insensitively, and otherwise propagates the
full payload as a fatal error. -/
theorem store_swallows_iff_all_duplicate (resp : PostResponse)
    (hfail : 400 ≤ resp.status ∧ resp.status < 600) :
    (storeOne resp = Except.ok () ↔
      ∀ p ∈ resp.errors, ∀ m ∈ p.2,
        pyStartsWith (pyLower m) "duplicate" = true) ∧
    (¬ (∀ p ∈ resp.errors, ∀ m ∈ p.2,
        pyStartsWith (pyLower m) "duplicate" = true) →
      storeOne resp = Except.error resp.errors) := by
  have hall : allDuplicate resp.errors = true ↔
      ∀ p ∈ resp.errors, ∀ m ∈ p.2,
        pyStartsWith (pyLower m) "duplicate" = true := by
    simp [allDuplicate, List.all_eq_true, List.mem_flatMap]
  unfold storeOne
  rw [if_pos hfail]
  by_cases hd : allDuplicate resp.errors
  · rw [if_pos hd]
    exact ⟨iff_of_true rfl (hall.mp hd), fun hc => absurd (hall.mp hd) hc⟩
  · rw [if_neg hd]
    constructor
    · constructor
      · intro h; cases h
      · intro h; exact absurd (hall.mpr h) hd
    · intro _; rfl

/-- Witness for C2: the single-field payload whose one message is
"Duplicate of transaction #5" is swallowed by the writer. -/
theorem store_swallows_iff_all_duplicate_witness :
    storeOne { status := 422,
               errors := [("amount", ["Duplicate of transaction #5"])] } =
      Except.ok () := by
  have h :=
    (store_swallows_iff_all_duplicate
      { status := 422, errors := [("amount", ["Duplicate of transaction #5"])] }
      (by norm_num)).1
  exact h.mpr (by decide)

/-- C9: a non-success response whose `errors` mapping is empty is swallowed
(the duplicate check is vacuously true), so the run continues. -/
theorem store_swallows_empty_errors (s : ℕ)
    (h4 : 400 ≤ s) (h6 : s < 600) :
    storeOne { status := s, errors := [] } = Except.ok () := by
  unfold storeOne
  rw [if_pos ⟨h4, h6⟩]
  rfl

/-- Witness for C9 at the concrete status 422. -/
theorem store_swallows_empty_errors_witness :
    storeOne { status := 422, errors := [] } = Except.ok () :=
  store_swallows_empty_errors 422 (by norm_num) (by norm_num)

/-- Counterexample for C7: a 404 response — a non-success status — is
converted by `find_account_by_iban` into an absent-account result instead of
propagating fatally, because the 404/empty-data check precedes
`raise_for_status`. -/
theorem resolver_404_yields_absent :
    findAccountByIban
      (fun _ => { status := 404, data := [exAssetAccount] })
      (some "CZ6520100000001234560100") = Except.ok none ∧
    400 ≤ 404 ∧ 404 < 600 := by
  exact ⟨rfl, by norm_num, by norm_num⟩

/-- C7 amended: a non-success registry response propagates fatally exactly
when its status is in 400–599, is not 404, and its `data` list is
non-empty; a 404 status or an empty `data` list is instead converted into
an absent-account result. -/
theorem resolver_fetch_failure_fatal (fetch : String → SearchResponse)
    (i : String) :
    (findAccountByIban fetch (some i) = Except.error (fetch i) ↔
      (400 ≤ (fetch i).status ∧ (fetch i).status < 600) ∧
      (fetch i).status ≠ 404 ∧ (fetch i).data ≠ []) ∧
    ((fetch i).status = 404 ∨ (fetch i).data = [] →
      findAccountByIban fetch (some i) = Except.ok none) := by
  simp only [findAccountByIban]
  by_cases h1 : (fetch i).status = 404 ∨ (fetch i).data.length = 0
  · rw [if_pos h1]
    constructor
    · constructor
      · intro h; cases h
      · rintro ⟨hr, hn4, hne⟩
        rcases h1 with h1 | h1
        · exact absurd h1 hn4
        · exact absurd (List.length_eq_zero.mp h1) hne
    · intro _; rfl
  · rw [if_neg h1]
    push_neg at h1
    obtain ⟨hn4, hlen⟩ := h1
    have hne : (fetch i).data ≠ [] := by
      intro hnil; exact hlen (by rw [hnil]; rfl)
    by_cases h2 : 400 ≤ (fetch i).status ∧ (fetch i).status < 600
    · rw [if_pos h2]
      exact ⟨iff_of_true rfl ⟨h2, hn4, hne⟩,
        fun h => by rcases h with h | h; exact absurd h hn4; exact absurd h hne⟩
    · rw [if_neg h2]
      constructor
      · constructor
        · intro h
          rcases hd : (fetch i).data with _ | ⟨a, rest⟩
          · exact absurd hd hne
          · rw [hd] at h; cases h
        · rintro ⟨hr, _, _⟩; exact absurd hr h2
      · intro h
        rcases h with h | h
        · exact absurd h hn4
        · exact absurd h hne

/-- Projection of a classification run's result onto its registry-request
count (`none` when the run aborted with an HTTP error). -/
def runRequestCount (r : Except SearchResponse (List Transaction × ℕ)) :
    Option ℕ :=
  match r with
  | Except.ok (_, n) => some n
  | Except.error _ => none

/-- Counterexample for C6: classifying a single transaction already performs
two registry requests (one for the derived counterparty IBAN, one for the
own IBAN), so the registry is not fetched at most once per run. -/
theorem registry_fetched_twice :
    runRequestCount (classifyAllCounted exFetch
      (fun _ => some "CZ7920100000001234560100") (some "CZ6520100000000000123456")
      [exTxNeg] 0) = some 2 ∧ (2 : ℕ) ≠ 1 :=
  ⟨rfl, by norm_num⟩

/-- On a 200-status response the resolver never raises. -/
theorem findAccountByIban_ok_200 (fetch : String → SearchResponse)
    (o : Option String) (hok : ∀ i, (fetch i).status = 200) :
    ∃ oa, findAccountByIban fetch o = Except.ok oa := by
  cases o with
  | none => exact ⟨none, rfl⟩
  | some i =>
    simp only [findAccountByIban]
    by_cases h1 : (fetch i).status = 404 ∨ (fetch i).data.length = 0
    · rw [if_pos h1]; exact ⟨none, rfl⟩
    · rw [if_neg h1, if_neg (by rw [hok i]; omega)]
      rcases hd : (fetch i).data with _ | ⟨a, rest⟩
      · exact ⟨none, rfl⟩
      · exact ⟨some a, rfl⟩

/-- The counted resolver call equals the plain one plus an increment exactly
when the IBAN is present. -/
theorem findAccountByIbanCounted_eq (fetch : String → SearchResponse)
    (o : Option String) (n : ℕ) :
    findAccountByIbanCounted fetch o n =
      (findAccountByIban fetch o, n + (if o.isSome then 1 else 0)) := by
  cases o <;> rfl

/-- One counted classification adds one request per present IBAN among the
derived counterparty IBAN and the own IBAN. -/
theorem fromFioDataCounted_count (fetch : String → SearchResponse)
    (di oi : Option String) (tx : RawTx) (n : ℕ)
    (hok : ∀ i, (fetch i).status = 200) :
    ∃ t, fromFioDataCounted fetch di oi tx n =
      Except.ok (t, n + ((if di.isSome then 1 else 0) +
        (if oi.isSome then 1 else 0))) := by
  obtain ⟨oa1, h1⟩ := findAccountByIban_ok_200 fetch di hok
  obtain ⟨oa2, h2⟩ := findAccountByIban_ok_200 fetch oi hok
  refine ⟨fromFioData oa2 oa1 tx, ?_⟩
  unfold fromFioDataCounted
  rw [findAccountByIbanCounted_eq, h1]
  show (match findAccountByIbanCounted fetch oi
      (n + (if di.isSome then 1 else 0)) with
    | (Except.error e, _) => Except.error e
    | (Except.ok account_data, n2) =>
      Except.ok (fromFioData account_data oa1 tx, n2)) = _
  rw [findAccountByIbanCounted_eq, h2]
  show Except.ok (fromFioData oa2 oa1 tx,
      n + (if di.isSome then 1 else 0) + (if oi.isSome then 1 else 0)) = _
  rw [Nat.add_assoc]

/-- The classification loop adds, per transaction, one request per present
IBAN, starting from any initial count. -/
theorem classifyAllCounted_count (fetch : String → SearchResponse)
    (derive : RawTx → Option String) (oi : Option String)
    (hok : ∀ i, (fetch i).status = 200) (txs : List RawTx) :
    ∀ n : ℕ, ∃ ts, classifyAllCounted fetch derive oi txs n =
      Except.ok (ts, n + (txs.map (fun tx =>
        (if (derive tx).isSome then 1 else 0) +
        (if oi.isSome then 1 else 0))).sum) := by
  induction txs with
  | nil => intro n; exact ⟨[], by simp [classifyAllCounted]⟩
  | cons tx rest ih =>
    intro n
    obtain ⟨t, ht⟩ := fromFioDataCounted_count fetch (derive tx) oi tx n hok
    obtain ⟨ts, hts⟩ :=
      ih (n + ((if (derive tx).isSome then 1 else 0) +
        (if oi.isSome then 1 else 0)))
    refine ⟨t :: ts, ?_⟩
    show (match fromFioDataCounted fetch (derive tx) oi tx n with
      | Except.error e => Except.error e
      | Except.ok (t, n1) =>
        match classifyAllCounted fetch derive oi rest n1 with
        | Except.error e => Except.error e
        | Except.ok (ts, n2) => Except.ok (t :: ts, n2)) = _
    rw [ht]
    show (match classifyAllCounted fetch derive oi rest
        (n + ((if (derive tx).isSome then 1 else 0) +
          (if oi.isSome then 1 else 0))) with
      | Except.error e => Except.error e
      | Except.ok (ts, n2) => Except.ok (t :: ts, n2)) = _
    rw [hts]
    show Except.ok (t :: ts, _) = Except.ok (t :: ts, _)
    rw [List.map_cons, List.sum_cons]
    rw [Nat.add_assoc]

/-- C6 amended: the account registry is NOT cached — every resolver call
with a present IBAN performs its own fetch, so a run that classifies `txs`
performs one registry request per transaction for the own IBAN plus one per
successfully derived counterparty IBAN (about two per transaction), rather
than at most one per run. -/
theorem registry_fetch_per_resolver_call (fetch : String → SearchResponse)
    (derive : RawTx → Option String) (oi : Option String) (txs : List RawTx)
    (hok : ∀ i, (fetch i).status = 200) :
    ∃ ts, classifyAllCounted fetch derive oi txs 0 =
      Except.ok (ts, (txs.map (fun tx =>
        (if (derive tx).isSome then 1 else 0) +
        (if oi.isSome then 1 else 0))).sum) := by
  obtain ⟨ts, h⟩ := classifyAllCounted_count fetch derive oi hok txs 0
  exact ⟨ts, by rw [h, Nat.zero_add]⟩

/-- Witness for the amended C6: one concrete transaction with a derivable
counterparty IBAN costs exactly two registry requests. -/
theorem registry_fetch_per_resolver_call_witness :
    ∃ ts, classifyAllCounted exFetch
      (fun _ => some "CZ7920100000001234560100") (some "CZ6520100000000000123456")
      [exTxPos] 0 = Except.ok (ts, 2) := by
  obtain ⟨ts, h⟩ := registry_fetch_per_resolver_call exFetch
    (fun _ => some "CZ7920100000001234560100") (some "CZ6520100000000000123456")
    [exTxPos] (fun _ => rfl)
  exact ⟨ts, by rw [h]; rfl⟩
